import Mathlib

/-!
Verification of the merge-request enrichment pipeline of
`jf_agent/git/gitlab_v3_client.py` (class `GitLabClient_v3`) via a shallow
embedding.  Python exceptions are modelled by the `PyErr` type, in-place
attribute mutation by explicit record updates, and attribute presence by
`Option` fields (a `none` field models an attribute that was never set on
the Python object).
-/

namespace JfAgent

/-- Exceptions that can flow through the pipeline.
`gitlab c` models `gitlab3.exceptions.GitLabException` with `response_code = c`;
`retry` models `requests.exceptions.RetryError`;
`attrError a` models Python `AttributeError` for attribute `a`;
`missingSourceProject` models the repository's `MissingSourceProjectException`. -/
inductive PyErr where
  | gitlab (response_code : Nat)
  | retry
  | attrError (attr : String)
  | missingSourceProject
deriving DecidableEq

/-- A GitLab project entity, as returned by `client.find_project(id)`. -/
structure Project where
  id : Nat
  name : String
deriving DecidableEq

/-- A note (comment) on a merge request. -/
structure Note where
  id : Nat
  body : String
deriving DecidableEq

/-- The in-flight merge-request object mutated by
`expand_merge_request_data`.  `Option` fields model attributes that the
Python code may or may not have set on the object: `none` means the
attribute is absent.  `note` is the attribute actually assigned on line 92
of the source (`merge_request.note = []`), kept distinct from `note_list`.
`approved_by` appears in the method's docstring but is never assigned by
the method; `diff_str` is the string the code stores back into
`merge_request.diff` (lines 95 and 102). -/
structure MRState where
  id : Nat
  target_project_id : Nat
  source_project_id : Nat
  target_project : Option Project := none
  source_project : Option Project := none
  note_list : Option (List Note) := none
  note : Option (List Note) := none
  approved_by : Option (List String) := none
  diff_str : Option String := none
  commit_list : Option (List String) := none
deriving DecidableEq

/-- The API-client collaborator for project lookup:
`find_project(id)` either returns a project or raises. -/
structure Env where
  projects : Nat → Except PyErr Project

/-- Collaborator behaviour attached to one merge request:
what `merge_request.notes()` and the lazy `merge_request.diff` attribute
produce when evaluated (each may raise). -/
structure MRFetch where
  notes : Except PyErr (List Note)
  diff : Except PyErr (List (List String))

/-- Result of running a pipeline stage: the (possibly partially) mutated
merge-request object, the project ids fetched from the client in order,
and the exception raised, if any (`some e` models an uncaught raise, in
which case the function returns no record to its caller). -/
structure StepResult where
  st : MRState
  fetched : List Nat
  err : Option PyErr
deriving DecidableEq

/-- Lines 55-56: flatten a list of lists of diff strings and join with
newlines (`_get_diff_string`). -/
def get_diff_string (diffs : List (List String)) : String :=
  String.intercalate "\n" diffs.flatten

/-- The `except` clause on lines 86 and 96 catches exactly
`requests.exceptions.RetryError` and `gitlab3.exceptions.GitLabException`. -/
def transientErr : PyErr → Bool
  | .retry => true
  | .gitlab _ => true
  | _ => false

/-- Lines 77-80: a `GitLabException` with response code 404 from the
source-project fetch is converted to `MissingSourceProjectException`;
any other `GitLabException` is re-raised unchanged, and exceptions of
other types are not caught at all. -/
def handleSourceErr : PyErr → PyErr
  | .gitlab code => if code = 404 then .missingSourceProject else .gitlab code
  | e => e

/-- Lines 68-82: fetch the target project, then either alias the source
project to it (same id) or fetch the source project, mapping a 404 to
`MissingSourceProjectException`.  The `fetched` component records the
project ids requested from the client, in order. -/
def resolveProjects (env : Env) (st : MRState) : StepResult :=
  match env.projects st.target_project_id with
  | .error e => ⟨st, [st.target_project_id], some e⟩
  | .ok tp =>
    let st1 := { st with target_project := some tp }
    if tp.id ≠ st1.source_project_id then
      match env.projects st1.source_project_id with
      | .error e =>
        ⟨st1, [st.target_project_id, st.source_project_id], some (handleSourceErr e)⟩
      | .ok sp =>
        ⟨{ st1 with source_project := some sp },
          [st.target_project_id, st.source_project_id], none⟩
    else
      ⟨{ st1 with source_project := some tp }, [st.target_project_id], none⟩

/-- Lines 84-92: try `merge_request.notes()`; on success set `note_list`;
on a caught (transient) error set the attribute `note` to the empty list
(the source assigns `merge_request.note`, not `merge_request.note_list`);
any other error propagates. -/
def notesStep (f : MRFetch) (st : MRState) : MRState × Option PyErr :=
  match f.notes with
  | .ok ns => ({ st with note_list := some ns }, none)
  | .error e =>
    if transientErr e then ({ st with note := some [] }, none) else (st, some e)

/-- Lines 94-102: evaluate `merge_request.diff`, flatten it to a string and
store it back; on a caught (transient) error store the empty string;
any other error propagates. -/
def diffStep (f : MRFetch) (st : MRState) : MRState × Option PyErr :=
  match f.diff with
  | .ok dss => ({ st with diff_str := some (get_diff_string dss) }, none)
  | .error e =>
    if transientErr e then ({ st with diff_str := some "" }, none) else (st, some e)

/-- Lines 58-106, `expand_merge_request_data`.  Line 105 reads
`self.get_mergerequest_commits(self, merge_request)`: the client object is
bound to the `mergerequest` parameter, so `mergerequest.get_commits()`
looks up `get_commits` on `GitLabClient_v3`, which has no such attribute;
the call therefore raises `AttributeError` whenever it is reached, and
`commit_list` is never assigned. -/
def expand_merge_request_data (env : Env) (f : MRFetch) (st : MRState) : StepResult :=
  let r1 := resolveProjects env st
  match r1.err with
  | some _ => r1
  | none =>
    let p2 := notesStep f r1.st
    match p2.2 with
    | some e => ⟨p2.1, r1.fetched, some e⟩
    | none =>
      let p3 := diffStep f p2.1
      match p3.2 with
      | some e => ⟨p3.1, r1.fetched, some e⟩
      | none => ⟨p3.1, r1.fetched, some (.attrError "get_commits")⟩

/-! ## Commit materialization (`get_mergerequest_commits`, lines 171-182) -/

/-- A per-file diff object as returned by `commit.diff()`: a mapping with a
`diff` text entry. -/
structure DiffObj where
  diff : String
deriving DecidableEq

/-- A fully materialized commit entity, as returned by
`project.find_commit(id)`. -/
structure Commit where
  id : String
  diffs : List DiffObj
deriving DecidableEq

/-- A lightweight commit reference: the raw mapping fragment from
`mergerequest.get_commits()`, carrying the commit id. -/
structure CommitRef where
  id : String
deriving DecidableEq

/-- An element of the commit list while it is being materialized: either
still the raw mapping fragment, or a full commit entity. -/
inductive CommitItem where
  | raw (r : CommitRef)
  | commit (c : Commit)
deriving DecidableEq

/-- Line 177-179: replace a reference by the commit `find_commit` resolves
it to, keeping the raw fragment when resolution yields nothing. -/
def resolveItem (resolve : String → Option Commit) (r : CommitRef) : CommitItem :=
  match resolve r.id with
  | some c => .commit c
  | none => .raw r

/-- Line 180: the filter `type(commit) != type(\x7b\x7d)` keeps exactly the
entries that are no longer raw mapping fragments. -/
def isFullCommit : CommitItem → Bool
  | .commit _ => true
  | .raw _ => false

/-- Lines 176-180: resolve every reference, then drop the entries that are
still raw mapping fragments. -/
def materialize (resolve : String → Option Commit) (refs : List CommitRef) :
    List CommitItem :=
  (refs.map (resolveItem resolve)).filter isFullCommit

/-- Lines 171-182, `get_mergerequest_commits`.  The `resolve` parameter
models `project.find_commit` of the owning project (the function looks the
project up by `mergerequest.project_id` when none is supplied); the second
argument is what `mergerequest.get_commits()` returned (`none` models a
null return).  When that value is falsy (`None` or the empty list) the
code returns it unchanged (`return commits`); otherwise it materializes. -/
def get_mergerequest_commits (resolve : String → Option Commit) :
    Option (List CommitRef) → Option (List CommitItem)
  | none => none
  | some [] => some []
  | some refs => some (materialize resolve refs)

/-! ## Event correlation and v3→v4 normalization (`get_event`, `add_v4_attrs`) -/

/-- A native timestamp object (`datetime`), abstracted to the ISO-8601 text
its `isoformat()` method produces. -/
structure DTime where
  iso : String
deriving DecidableEq

/-- A dynamically-typed timestamp attribute: either still the native
`datetime` object, or already rewritten to ISO-8601 text. -/
inductive TimeVal where
  | dt (t : DTime)
  | text (s : String)
deriving DecidableEq

/-- Calling `.isoformat()` on a timestamp attribute: defined on `datetime`
objects, an `AttributeError` (modelled as `none`) on text. -/
def isoformat : TimeVal → Option String
  | .dt t => some t.iso
  | .text _ => none

/-- The payload of an event's `data` mapping (only `checkout_sha` is read). -/
structure EventData where
  checkout_sha : String
deriving DecidableEq

/-- An audit-log event from `project.find_event(...)`.  `data = none`
models a falsy `data` attribute (null or empty mapping). -/
structure Event where
  data : Option EventData
  action_name : String
  created_at : DTime
  author_name : String
deriving DecidableEq

/-- Lines 117-118: an event matches when its `data` is truthy, its
`action_name` is the literal string used on line 117, and its
`data` checkout sha equals the one searched for. -/
def eventMatches (cs : String) (e : Event) : Bool :=
  match e.data with
  | none => false
  | some d => e.action_name == "pushed to" && d.checkout_sha == cs

/-- The collaborator state for the normalizer: the event stream
`project.find_event(action_name, find_all)` yields per project id, and
`project.find_commit` of the project handed to `add_v4_attrs`. -/
structure V4Env where
  events : Nat → List Event
  find_commit : String → Option Commit

/-- Lines 108-120, `get_event`: with a checkout sha, return the first
event of the project's stream that matches it; with no match (or with no
checkout sha at all) return the whole fetched event list.  The return
type reflects that the Python function returns either a single event or
the list. -/
def get_event (env : V4Env) (checkout_sha : Option String) (project_id : Nat) :
    Event ⊕ List Event :=
  let events := env.events project_id
  match checkout_sha with
  | none => .inr events
  | some cs =>
    match events.find? (eventMatches cs) with
    | some ev => .inl ev
    | none => .inr events

/-- Python `str.splitlines`, restricted to newline boundaries: split on
newline characters, a trailing newline producing no extra empty line. -/
def splitlines (s : String) : List String :=
  if s = "" then []
  else
    let parts := s.splitOn "\n"
    if parts.getLast? = some "" then parts.dropLast else parts

/-- `commit.diff()` on an entry of the materialized commit list.  After
`get_mergerequest_commits` only full commits remain; on a raw fragment the
Python call would fail, modelled here as an empty diff list (unreachable
from materialized output). -/
def CommitItem.diffList : CommitItem → List DiffObj
  | .commit c => c.diffs
  | .raw _ => []

/-- A v3-shaped merge-request entry as processed by `add_v4_attrs`.
The first block are the raw attributes the entry arrives with
(`commit_refs` is what `entry.get_commits()` returns); the `Option`
fields are the attributes `add_v4_attrs` sets, `none` while absent. -/
structure Entry where
  sha : String
  project_id : Nat
  created_at : TimeVal
  updated_at : TimeVal
  target_branch : String
  source_branch : String
  commit_refs : Option (List CommitRef)
  merge_date : Option String := none
  approved_by : Option String := none
  updated_at_dt : Option TimeVal := none
  closed_at : Option String := none
  base_branch : Option String := none
  head_branch : Option String := none
  diff : Option (Option (List (List String))) := none
deriving DecidableEq

/-- Lines 186-211: the per-entry body of `add_v4_attrs` for the
`mergerequest` type tag, with Python's in-place mutation and exception
semantics made explicit: the result is the entry as mutated so far plus a
flag that is `false` when an `AttributeError` was raised part-way through.
Reading `.created_at` on the event list returned by `get_event` when no
event matched (line 193), or calling `.isoformat()` on an already-textual
timestamp (lines 197-198), raises.  Lines 198-199 first overwrite
`updated_at` with its ISO text and only then copy `updated_at` into
`updated_at_dt`, so the copy is the text, not the native timestamp.
Lines 203-211 set `diff` from the materialized commits, `none` (null) when
the commit list is falsy. -/
def addV4Entry (env : V4Env) (e : Entry) : Entry × Bool :=
  match get_event env (some e.sha) e.project_id with
  | .inr _ => (e, false)
  | .inl ev =>
    let commits := get_mergerequest_commits env.find_commit e.commit_refs
    let e1 := { e with merge_date := some ev.created_at.iso,
                       approved_by := some ev.author_name }
    match isoformat e1.created_at with
    | none => (e1, false)
    | some cstr =>
      let e2 := { e1 with created_at := .text cstr }
      match isoformat e2.updated_at with
      | none => (e2, false)
      | some ustr =>
        let e3 := { e2 with updated_at := .text ustr,
                            updated_at_dt := some (.text ustr) }
        let e4 := { e3 with closed_at := some ev.created_at.iso,
                            base_branch := some e3.target_branch,
                            head_branch := some e3.source_branch }
        let dval : Option (List (List String)) :=
          match commits with
          | none => none
          | some [] => none
          | some cs => some ((cs.map CommitItem.diffList).flatten.map
              (fun o => splitlines o.diff))
        ({ e4 with diff := some dval }, true)

/-- Lines 184-220, `add_v4_attrs` over a dataset: entries are processed in
order; a raise part-way leaves the processed prefix and the partially
mutated current entry in place and aborts the loop.  The other type tags
only print. -/
def add_v4_attrs (env : V4Env) (ty : String) : List Entry → List Entry × Bool
  | [] => ([], true)
  | e :: rest =>
    if ty = "mergerequest" then
      let p := addV4Entry env e
      if p.2 then
        let q := add_v4_attrs env ty rest
        (p.1 :: q.1, q.2)
      else (p.1 :: rest, false)
    else (e :: rest, true)

/-! ## Concrete fixtures for counterexamples and witnesses -/

/-- A concrete project with id 7. -/
def proj7 : Project := ⟨7, "target"⟩

/-- A client that knows project 7 and answers 404 for any other id. -/
def envE : Env := ⟨fun i => if i = 7 then .ok proj7 else .error (.gitlab 404)⟩

/-- A same-project merge request (target and source project ids agree). -/
def mrSame : MRState := { id := 1, target_project_id := 7, source_project_id := 7 }

/-- A cross-fork merge request whose source project (id 8) does not exist. -/
def mrFork : MRState := { id := 2, target_project_id := 7, source_project_id := 8 }

/-- Sub-resource fetches that all succeed. -/
def fOk : MRFetch := ⟨.ok [⟨1, "looks good"⟩], .ok [["line1", "line2"]]⟩

/-- Sub-resource fetches where the notes fetch raises retry exhaustion. -/
def fNotesFail : MRFetch := ⟨.error .retry, .ok [["line1"]]⟩

/-- A normalizer environment with an empty event stream. -/
def envV4Empty : V4Env := ⟨fun _ => [], fun _ => none⟩

/-- The merge request's head commit timestamp fixtures. -/
def dtCreated : DTime := ⟨"2021-03-04T05:06:07"⟩

/-- The updated-at timestamp fixture. -/
def dtUpdated : DTime := ⟨"2021-03-05T08:09:10"⟩

/-- The timestamp of the correlated push event. -/
def dtMerged : DTime := ⟨"2021-03-06T00:00:00"⟩

/-- A push event whose checkout sha matches `entry0`. -/
def evPush : Event := ⟨some ⟨"abc123"⟩, "pushed to", dtMerged, "alice"⟩

/-- A normalizer environment whose event stream holds exactly `evPush`. -/
def envV4One : V4Env := ⟨fun _ => [evPush], fun _ => none⟩

/-- A v3-shaped entry with native datetime timestamps and no commits. -/
def entry0 : Entry :=
  { sha := "abc123", project_id := 1, created_at := .dt dtCreated,
    updated_at := .dt dtUpdated, target_branch := "main",
    source_branch := "feature", commit_refs := some [] }

/-! ## Claim theorems -/

/-- Helper: `handleSourceErr` leaves every error other than a 404
`GitLabException` unchanged. -/
lemma handleSourceErr_ne (e : PyErr) (h : e ≠ PyErr.gitlab 404) :
    handleSourceErr e = e := by
  cases e with
  | gitlab c =>
    have hc : c ≠ 404 := fun hcc => h (by rw [hcc])
    simp [handleSourceErr, hc]
  | retry => rfl
  | attrError a => rfl
  | missingSourceProject => rfl

/-- C1: for a merge request whose source project differs from the (fetched)
target project, a 404 `GitLabException` from the source-project fetch makes
`expand_merge_request_data` raise `MissingSourceProjectException`
(`err = some missingSourceProject`, so no record is returned to the
caller), and any other error from that fetch propagates unchanged. -/
theorem expand_source_project_not_found (env : Env) (f : MRFetch) (st : MRState)
    (tp : Project) (htp : env.projects st.target_project_id = Except.ok tp)
    (hne : tp.id ≠ st.source_project_id) :
    (env.projects st.source_project_id = Except.error (PyErr.gitlab 404) →
      (expand_merge_request_data env f st).err = some PyErr.missingSourceProject) ∧
    (∀ e : PyErr, env.projects st.source_project_id = Except.error e →
      e ≠ PyErr.gitlab 404 →
      (expand_merge_request_data env f st).err = some e) := by
  constructor
  · intro hsrc
    simp [expand_merge_request_data, resolveProjects, htp, hne, hsrc, handleSourceErr]
  · intro e hsrc hne404
    simp [expand_merge_request_data, resolveProjects, htp, hne, hsrc,
      handleSourceErr_ne e hne404]

/-- Witness for C1 at a concrete fork whose source project yields a 404. -/
theorem expand_source_project_not_found_witness :
    (expand_merge_request_data envE fOk mrFork).err
      = some PyErr.missingSourceProject :=
  (expand_source_project_not_found envE fOk mrFork proj7 rfl (by decide)).1 rfl

/-- C2 (code bug): with a same-project merge request whose notes fetch
fails transiently, the enriched record leaves `note_list` unset (the
source assigns the attribute `note` instead), never sets `approved_by`,
never sets `commit_list`, and the pipeline raises `AttributeError` at the
commit-list step because line 105 passes the client itself as the
merge request. -/
theorem expand_missing_subresource_fields :
    (expand_merge_request_data envE fNotesFail mrSame).st.note_list = none ∧
    (expand_merge_request_data envE fNotesFail mrSame).st.note = some [] ∧
    (expand_merge_request_data envE fNotesFail mrSame).st.approved_by = none ∧
    (expand_merge_request_data envE fNotesFail mrSame).st.commit_list = none ∧
    (expand_merge_request_data envE fNotesFail mrSame).err
      = some (PyErr.attrError "get_commits") := by decide

/-- C3 (code bug): for a same-project merge request the resolver does
alias `source_project` to the very project fetched for the target (a
single project fetch is issued), but `expand_merge_request_data` then
always raises `AttributeError` at the commit-list step, so no enriched
record is ever returned. -/
theorem expand_same_project_aliases_then_raises :
    (expand_merge_request_data envE fOk mrSame).st.source_project = some proj7 ∧
    (expand_merge_request_data envE fOk mrSame).st.target_project = some proj7 ∧
    (expand_merge_request_data envE fOk mrSame).fetched = [7] ∧
    (expand_merge_request_data envE fOk mrSame).err
      = some (PyErr.attrError "get_commits") := by decide

/-- C4 (code bug): when the notes fetch raises retry exhaustion, the notes
stage swallows the error but assigns the attribute `note`, leaving
`note_list` unset, contrary to the claim that `note_list` equals the empty
sequence. -/
theorem notesStep_failure_sets_note_not_note_list :
    (notesStep fNotesFail mrSame).1.note_list = none ∧
    (notesStep fNotesFail mrSame).1.note = some [] ∧
    (notesStep fNotesFail mrSame).2 = none := by decide

/-- Helper: materializing is filtering the references through the
resolver, preserving order. -/
lemma materialize_eq_filterMap (resolve : String → Option Commit)
    (refs : List CommitRef) :
    materialize resolve refs
      = refs.filterMap (fun r => (resolve r.id).map CommitItem.commit) := by
  induction refs with
  | nil => rfl
  | cons r rs ih =>
    simp only [materialize, List.map_cons, List.filter_cons,
      List.filterMap_cons] at ih ⊢
    cases hr : resolve r.id with
    | none => simpa [resolveItem, hr, isFullCommit] using ih
    | some c => simpa [resolveItem, hr, isFullCommit] using ih

/-- C5 (amended): for every list of commit references the materialized
commit list holds exactly the references the resolver resolves, as full
commits, in original input order (unresolvable references are dropped);
an empty input yields an empty output, and an absent (null) input is
returned absent (null), never an error. -/
theorem get_mergerequest_commits_spec (resolve : String → Option Commit)
    (refs : List CommitRef) :
    get_mergerequest_commits resolve (some refs)
      = some (refs.filterMap (fun r => (resolve r.id).map CommitItem.commit)) ∧
    get_mergerequest_commits resolve none = none := by
  refine ⟨?_, rfl⟩
  cases refs with
  | nil => rfl
  | cons r rs =>
    simp [get_mergerequest_commits, materialize_eq_filterMap]

/-- C5 counterexample: an absent (null) commit-reference input is returned
as null, not as the empty output the claim states. -/
theorem get_mergerequest_commits_absent_cex :
    get_mergerequest_commits (fun _ => none) none = none ∧
    get_mergerequest_commits (fun _ => none) none ≠ some [] :=
  ⟨rfl, by decide⟩

/-- C6 (code bug): the normalizer does rewrite `created_at` and
`updated_at` to ISO-8601 text, but `updated_at_dt` receives the already
rewritten text (line 198 overwrites `updated_at` before line 199 copies
it), not the raw timestamp object the claim states. -/
theorem addV4Entry_updated_at_dt_is_text :
    ((addV4Entry envV4One entry0).1.created_at
        = TimeVal.text "2021-03-04T05:06:07" ∧
      (addV4Entry envV4One entry0).1.updated_at
        = TimeVal.text "2021-03-05T08:09:10" ∧
      (addV4Entry envV4One entry0).1.updated_at_dt
        = some (TimeVal.text "2021-03-05T08:09:10")) ∧
    ∀ t : DTime,
      (addV4Entry envV4One entry0).1.updated_at_dt ≠ some (TimeVal.dt t) := by
  refine ⟨by decide, ?_⟩
  intro t h
  rw [show (addV4Entry envV4One entry0).1.updated_at_dt
      = some (TimeVal.text "2021-03-05T08:09:10") from by decide] at h
  simp at h

/-- C7: when the first event of the project's stream matching the entry's
head sha (via the line 117-118 predicate) is `ev`, and the entry's
timestamps are still native datetime objects, the normalizer sets both
`merge_date` and `closed_at` to the identical ISO text of that event's
timestamp. -/
theorem addV4Entry_merge_close_dates (env : V4Env) (e : Entry) (ev : Event)
    (t u : DTime)
    (hfind : (env.events e.project_id).find? (eventMatches e.sha) = some ev)
    (hc : e.created_at = TimeVal.dt t) (hu : e.updated_at = TimeVal.dt u) :
    (addV4Entry env e).1.merge_date = some ev.created_at.iso ∧
    (addV4Entry env e).1.closed_at = some ev.created_at.iso := by
  simp [addV4Entry, get_event, hfind, hc, hu, isoformat]

/-- Witness for C7 on a concrete entry and matching push event. -/
theorem addV4Entry_merge_close_dates_witness :
    (addV4Entry envV4One entry0).1.merge_date = some evPush.created_at.iso ∧
    (addV4Entry envV4One entry0).1.closed_at = some evPush.created_at.iso :=
  addV4Entry_merge_close_dates envV4One entry0 evPush dtCreated dtUpdated
    (by decide) rfl rfl

/-- C8: under the same normalization hypotheses, if no commits were
materialized (absent or empty commit list) the `diff` field is set to an
explicit null, and if commits were materialized it is set to the sequence
of per-file diff-line lists drawn from those commits' diffs. -/
theorem addV4Entry_diff_field (env : V4Env) (e : Entry) (ev : Event)
    (t u : DTime)
    (hfind : (env.events e.project_id).find? (eventMatches e.sha) = some ev)
    (hc : e.created_at = TimeVal.dt t) (hu : e.updated_at = TimeVal.dt u) :
    ((get_mergerequest_commits env.find_commit e.commit_refs = none ∨
      get_mergerequest_commits env.find_commit e.commit_refs = some []) →
      (addV4Entry env e).1.diff = some none) ∧
    (∀ c cs,
      get_mergerequest_commits env.find_commit e.commit_refs = some (c :: cs) →
      (addV4Entry env e).1.diff
        = some (some ((((c :: cs).map CommitItem.diffList).flatten).map
            (fun o => splitlines o.diff)))) := by
  constructor
  · rintro (h | h) <;> simp [addV4Entry, get_event, hfind, hc, hu, isoformat, h]
  · intro c cs h
    simp [addV4Entry, get_event, hfind, hc, hu, isoformat, h]

/-- Witness for C8: with an empty commit list the diff field is null. -/
theorem addV4Entry_diff_field_witness :
    (addV4Entry envV4One entry0).1.diff = some none :=
  (addV4Entry_diff_field envV4One entry0 evPush dtCreated dtUpdated
    (by decide) rfl rfl).1 (Or.inr rfl)

/-- Helper: `isoformat` on a native datetime yields its ISO text. -/
lemma isoformat_dt (t : DTime) : isoformat (TimeVal.dt t) = some t.iso := rfl

/-- Helper: `isoformat` on already-converted text raises (yields none). -/
lemma isoformat_text (s : String) : isoformat (TimeVal.text s) = none := rfl

/-- C9: re-running the normalizer on an entry it has already normalized
successfully leaves `base_branch` and `head_branch` unchanged (the second
run re-finds the same event and then raises on the already-textual
`created_at`, before ever reaching the branch assignments). -/
theorem addV4Entry_branch_idempotent (env : V4Env) (e : Entry)
    (h : (addV4Entry env e).2 = true) :
    (addV4Entry env ((addV4Entry env e).1)).1.base_branch
      = ((addV4Entry env e).1).base_branch ∧
    (addV4Entry env ((addV4Entry env e).1)).1.head_branch
      = ((addV4Entry env e).1).head_branch := by
  rcases hev : get_event env (some e.sha) e.project_id with ev | l
  · rcases hct : isoformat e.created_at with _ | cstr
    · simp [addV4Entry, hev, hct] at h
    · rcases hut : isoformat e.updated_at with _ | ustr
      · simp [addV4Entry, hev, hct, hut] at h
      · constructor <;> simp [addV4Entry, hev, hct, hut, isoformat_text]
  · simp [addV4Entry, hev] at h

/-- Witness for C9 on a concrete successfully normalized entry. -/
theorem addV4Entry_branch_idempotent_witness :
    (addV4Entry envV4One ((addV4Entry envV4One entry0).1)).1.base_branch
      = ((addV4Entry envV4One entry0).1).base_branch ∧
    (addV4Entry envV4One ((addV4Entry envV4One entry0).1)).1.head_branch
      = ((addV4Entry envV4One entry0).1).head_branch :=
  addV4Entry_branch_idempotent envV4One entry0 (by decide)

/-- C10: with a checkout sha that matches no event of the project's stream
(in particular an empty stream), `get_event` returns the whole fetched
event list; only when some event matches does it return a single event
(which itself matches). -/
theorem get_event_no_match_returns_stream (env : V4Env) (pid : Nat) (cs : String) :
    ((∀ e ∈ env.events pid, eventMatches cs e = false) →
      get_event env (some cs) pid = Sum.inr (env.events pid)) ∧
    ((∃ e ∈ env.events pid, eventMatches cs e = true) →
      ∃ ev, get_event env (some cs) pid = Sum.inl ev ∧ eventMatches cs ev = true) := by
  constructor
  · intro h
    have hn : (env.events pid).find? (eventMatches cs) = none := by
      rw [List.find?_eq_none]
      intro x hx
      simp [h x hx]
    simp [get_event, hn]
  · intro h
    have hs : ((env.events pid).find? (eventMatches cs)).isSome := by
      rw [List.find?_isSome]
      obtain ⟨e, he, hm⟩ := h
      exact ⟨e, he, hm⟩
    obtain ⟨ev, hev⟩ := Option.isSome_iff_exists.mp hs
    exact ⟨ev, by simp [get_event, hev], List.find?_some hev⟩

/-- Witness for C10 on the empty event stream. -/
theorem get_event_no_match_witness :
    get_event envV4Empty (some "zzz") 1 = Sum.inr (envV4Empty.events 1) :=
  (get_event_no_match_returns_stream envV4Empty 1 "zzz").1 (by simp [envV4Empty])

end JfAgent
